import Mathlib

/-!
Verification of the multi-session aggregation and entity-resolution layer of
the edupage-mcp server (`src/edupage_mcp/server.py`) against its design
specification.

Shallow embedding conventions:
* The module-level dict `_sessions` is embedded as an association list
  `List (String × σ)` in insertion order (Python dicts preserve insertion
  order); a session handle is an opaque type parameter `σ`.
* A Python function that can raise is embedded as a function into `Except`.
  Each distinct `raise RuntimeError(...)` site is represented by one
  constructor of an error inductive carrying exactly the data interpolated
  into the message.
* The fetch callback of `_for_all_sessions` is embedded as
  `σ → Except String (List β)`: a raised exception becomes `Except.error`
  with the exception text (`str(e)`).
* Tagging `item["school"] = sub` is embedded by pairing each result element
  with an `Option String` provenance tag (`none` = untagged single-school
  shape).
-/

/-- Errors raised by `_get_session`, `_get_all_sessions` and
`_for_all_sessions`. Constructors correspond one-to-one to the `raise`
sites and carry the data interpolated into the message text:
`notAuthenticated` = "Not logged in...", `schoolNotFound` = "School
'{school}' not found. Available: {available}", `ambiguousSession` =
"Multiple schools connected ({available})...", `allSchoolsFailed` =
"All schools failed: {errors}". -/
inductive EduError where
  | notAuthenticated
  | schoolNotFound (school : String) (available : List String)
  | ambiguousSession (available : List String)
  | allSchoolsFailed (errors : List (String × String))
deriving DecidableEq, Repr

/-- Embedding of `_get_session(school)`.  Mirrors the source order of
checks: empty registry first, then the explicit-school branch, then the
single-session branch, else the ambiguity error.  `next(iter(...))` on an
insertion-ordered dict is the head of the association list. -/
def get_session {σ : Type} (reg : List (String × σ)) (school : String) :
    Except EduError σ :=
  if reg.isEmpty then .error .notAuthenticated
  else if school ≠ "" then
    match List.lookup school reg with
    | some s => .ok s
    | none => .error (.schoolNotFound school (reg.map Prod.fst))
  else if h : reg.length = 1 then
    match reg, h with
    | (_, s) :: _, _ => .ok s
  else .error (.ambiguousSession (reg.map Prod.fst))

/-- Embedding of the `for sub, edu in sessions.items():` loop body of
`_for_all_sessions`: accumulates the merged result list (tagged with the
subdomain when `multi`) and the per-session error list, in session order. -/
def for_all_loop {σ β : Type} (multi : Bool) (fetch : σ → Except String (List β)) :
    List (String × σ) → List (Option String × β) × List (String × String)
  | [] => ([], [])
  | p :: rest =>
    let acc := for_all_loop multi fetch rest
    match fetch p.2 with
    | .ok results =>
      ((results.map fun r => (if multi then some p.1 else none, r)) ++ acc.1, acc.2)
    | .error e => (acc.1, (p.1, e) :: acc.2)

/-- The tagging decision `multi = _is_multi_school() and not school`
(`_is_multi_school` reads the full registry, not the narrowed dict). -/
def fan_out_multi {σ : Type} (reg : List (String × σ)) (school : String) : Bool :=
  decide (reg.length > 1) && decide (school = "")

/-- Embedding of `_for_all_sessions(fn, school)`.  `_get_all_sessions`
raises `notAuthenticated` on an empty registry; an explicit school narrows
the session dict (or raises `schoolNotFound`); finally the merged/errors
decision: `if not merged and errors: raise AllSchoolsFailed`. -/
def for_all_sessions {σ β : Type} (reg : List (String × σ))
    (fetch : σ → Except String (List β)) (school : String) :
    Except EduError (List (Option String × β)) :=
  if reg.isEmpty then .error .notAuthenticated
  else
    match (if school ≠ "" then (List.lookup school reg).map (fun s => [(school, s)])
           else some reg) with
    | none => .error (.schoolNotFound school (reg.map Prod.fst))
    | some sessions =>
      let res := for_all_loop (fan_out_multi reg school) fetch sessions
      if res.1.isEmpty && !res.2.isEmpty then .error (.allSchoolsFailed res.2)
      else .ok res.1

/-- The concatenation, in session order, of the tagged contributions of the
sessions whose fetch succeeded (characterises the first component of
`for_all_loop`). -/
def fan_out_oks {σ β : Type} (fetch : σ → Except String (List β)) (multi : Bool)
    (sessions : List (String × σ)) : List (Option String × β) :=
  sessions.flatMap fun p =>
    match fetch p.2 with
    | .ok rs => rs.map fun r => (if multi then some p.1 else none, r)
    | .error _ => []

/-- One `(subdomain, message)` entry per failed session, in session order
(characterises the second component of `for_all_loop`). -/
def fan_out_errs {σ β : Type} (fetch : σ → Except String (List β))
    (sessions : List (String × σ)) : List (String × String) :=
  sessions.filterMap fun p =>
    match fetch p.2 with
    | .ok _ => none
    | .error m => some (p.1, m)

/-!
### Student resolution (`_resolve_student`, `_resolve_student_across_sessions`)

Students are embedded with their `name` attribute as `Option String`
(`none` = attribute absent, so that the differing `getattr` defaults `""`
and `"?"` in the source are visible).  `edu.get_students()` is embedded as
a per-session student list (the backend fetch itself is out of scope and
modelled as always succeeding, so the `try/except` around the diagnostic
`get_students()` call never fires).  Python `str.lower` is embedded as
character-wise `Char.toLower`.
-/

structure Student where
  pid : Nat
  name : Option String
deriving DecidableEq, Repr

/-- Lower-cased character list of a string (embedding of `s.lower()`). -/
def lower_chars (s : String) : List Char := s.data.map Char.toLower

/-- First list is a leading segment of the second. -/
def leads : List Char → List Char → Bool
  | [], _ => true
  | _ :: _, [] => false
  | a :: as, b :: bs => a == b && leads as bs

/-- Embedding of Python substring containment `needle in hay`
(the empty needle is contained in everything). -/
def within (needle : List Char) : List Char → Bool
  | [] => needle.isEmpty
  | hay@(_ :: t) => leads needle hay || within needle t

/-- Exact case-insensitive match: `getattr(s, "name", "").lower() == name_lower`. -/
def exact_match (name : String) (s : Student) : Bool :=
  lower_chars (s.name.getD "") == lower_chars name

/-- Substring case-insensitive match: `name_lower in getattr(s, "name", "").lower()`. -/
def sub_match (name : String) (s : Student) : Bool :=
  within (lower_chars name) (lower_chars (s.name.getD ""))

/-- Display name with the `"?"` default: `getattr(s, "name", "?")`. -/
def display (s : Student) : String := s.name.getD "?"

/-- Error messages returned (as the second tuple component) by
`_resolve_student`; constructors carry the data interpolated into the
message: `noStudents` = "No students found...", `ambiguous` = "Ambiguous
name '{name}'. Matches: {matches}", `notFoundSingle` = "Student '{name}'
not found. Available: {available}". -/
inductive ResolveErr where
  | noStudents
  | ambiguous (name : String) (matched : List String)
  | notFoundSingle (name : String) (available : List String)
deriving DecidableEq, Repr

/-- Embedding of `_resolve_student(edu, student_name)`: the first exact
case-insensitive match wins; otherwise exactly one substring match
resolves, several are ambiguous, zero is not found.  The `(student, err)`
tuple is embedded with `""` (no error) as `none`. -/
def resolve_student (students : List Student) (name : String) :
    Option Student × Option ResolveErr :=
  if students.isEmpty then (none, some ResolveErr.noStudents)
  else
    match students.find? (exact_match name) with
    | some s => (some s, none)
    | none =>
      match students.filter (sub_match name) with
      | [m] => (some m, none)
      | [] => (none, some (ResolveErr.notFoundSingle name (students.map display)))
      | ms => (none, some (ResolveErr.ambiguous name (ms.map display)))

/-- Errors of `_resolve_student_across_sessions` (both the raised
`notAuthenticated` of `_get_all_sessions` and the returned error-message
tuples): `multipleSchools` = "Student '{name}' found in multiple schools:
{schools}...", `notFoundAnywhere` = "Student '{name}' not found.
Available: {name (sub), ...}". -/
inductive CrossErr where
  | notAuthenticated
  | schoolNotFound (school : String) (available : List String)
  | multipleSchools (name : String) (schools : List String)
  | notFoundAnywhere (name : String) (available : List (String × String))
deriving DecidableEq, Repr

/-- The `(edu, student)` pair returned on success by
`_resolve_student_across_sessions` (a session handle is its student list
in this embedding). -/
structure CrossOk where
  edu : List Student
  student : Student
deriving DecidableEq, Repr

/-- Embedding of the `for sub, edu in sessions.items():` loop of
`_resolve_student_across_sessions`: accumulates `found` (subdomain,
session, student) and, for sessions whose resolution returned no student,
the `(subdomain, display-name)` diagnostics of all their students. -/
def cross_loop (name : String) :
    List (String × List Student) →
      List (String × List Student × Student) × List (String × String)
  | [] => ([], [])
  | p :: rest =>
    let acc := cross_loop name rest
    match (resolve_student p.2 name).1 with
    | some st => ((p.1, p.2, st) :: acc.1, acc.2)
    | none => (acc.1, (p.2.map fun s => (p.1, display s)) ++ acc.2)

/-- Embedding of `_resolve_student_across_sessions(student_name, school)`. -/
def resolve_student_across_sessions (reg : List (String × List Student))
    (name school : String) : Except CrossErr CrossOk :=
  if reg.isEmpty then .error .notAuthenticated
  else
    match (if school ≠ "" then (List.lookup school reg).map (fun sts => [(school, sts)])
           else some reg) with
    | none => .error (.schoolNotFound school (reg.map Prod.fst))
    | some sessions =>
      let res := cross_loop name sessions
      match res.1 with
      | [f] => .ok ⟨f.2.1, f.2.2⟩
      | [] => .error (.notFoundAnywhere name res.2)
      | fs => .error (.multipleSchools name (fs.map fun f => f.1))

/-- The sessions (with their resolved student) in which per-session
resolution succeeds — characterises the `found` list of the loop. -/
def found_sessions (reg : List (String × List Student)) (name : String) :
    List (String × List Student × Student) :=
  reg.filterMap fun p => ((resolve_student p.2 name).1).map (fun st => (p.1, p.2, st))

/-- The `(subdomain, student-name)` diagnostics gathered from the sessions
in which per-session resolution returned no student — characterises the
`all_students` list of the loop. -/
def not_found_diags (reg : List (String × List Student)) (name : String) :
    List (String × String) :=
  reg.flatMap fun p =>
    match (resolve_student p.2 name).1 with
    | some _ => []
    | none => p.2.map fun s => (p.1, display s)

/-!
### Timeline filter pipeline (`_filter_timeline_events`)

Events are embedded with exactly the attributes the pipeline reads.
Booleans read through `getattr(e, ..., False)` and then used only for
truthiness are embedded as `Bool` (absent and `None` both behave as
`false`).  `event_type` is embedded as the string `type_val` computed by
the source (`none` = absent/`None`, giving `""`).  Datetimes are
Nat-encoded (minutes since `datetime.min`, so `datetime.min = 0` and the
date component is division by 1440); `timestamp = none` embeds an absent
timestamp attribute, for which `getattr(e, "timestamp", datetime.min)`
yields the minimum.  An attribute present with value `None` is not
representable in `TEvent`: it behaves like an absent one in every filter
step, but the sort key is then the Python `None` and the sort raises; that
error path is modelled by the refined `TEventN` pipeline further below.
The `strptime` parsing of the
`date_from`/`date_to` arguments is abstracted to the parsed date values
(`none` for the empty string).
-/

structure TEvent where
  eid : Nat
  is_removed : Bool
  event_type : Option String
  is_done : Bool
  is_starred : Bool
  timestamp : Option Nat
deriving DecidableEq, Repr

structure Criteria where
  include_system : Bool := false
  status : String := ""
  starred : String := ""
  event_type : String := ""
  category : String := ""
  date_from : Option Nat := none
  date_to : Option Nat := none
  limit : Nat := 50
  offset : Nat := 0
deriving DecidableEq, Repr

/-- The fixed `_SYSTEM_EVENT_TYPES` set (membership-checked list). -/
def SYSTEM_EVENT_TYPES : List String :=
  ["h_attendance", "h_vcelicka", "h_clearcache", "h_cleardbi",
   "h_clearisicdata", "h_clearplany", "h_contest", "h_dailyplan",
   "h_edusettings", "h_financie", "h_znamky", "h_homework",
   "h_igroups", "h_process", "h_processtypes", "h_settings",
   "h_substitution", "h_timetable", "h_userphoto",
   "strava_kredit", "strava_vydaj", "h_stravamenu", "pipnutie"]

/-- The static `_EVENT_CATEGORIES` table, in source order. -/
def EVENT_CATEGORIES : List (String × List String) :=
  [("homework", ["homework", "etesthw"]),
   ("grades", ["znamka", "znamkydoc"]),
   ("exams", ["bexam", "sexam", "oexam", "rexam", "pexam", "testing"]),
   ("messages", ["sprava"]),
   ("absences", ["student_absent", "ospravedlnenka"]),
   ("events", ["event", "schoolevent", "excursion", "trip", "culture",
               "parentsevening", "meeting", "bmeeting"]),
   ("news", ["news"])]

/-- Embedding of `{t.strip() for t in event_type.split(",")}` (a list with
the same membership as the Python set). -/
def split_types (s : String) : List String := (s.splitOn ",").map String.trim

/-- The `type_filter` computation at the head of `_filter_timeline_events`:
`if category and category in _EVENT_CATEGORIES: ... elif event_type: ...`. -/
def compute_type_filter (category event_type : String) : Option (List String) :=
  if category ≠ "" then
    match List.lookup category EVENT_CATEGORIES with
    | some ts => some ts
    | none => if event_type ≠ "" then some (split_types event_type) else none
  else if event_type ≠ "" then some (split_types event_type) else none

/-- The `type_val` string the pipeline computes from an event
(absent/`None` event type gives `""`). -/
def type_val (e : TEvent) : String := e.event_type.getD ""

/-- Date component of a Nat-encoded datetime (`ts.date()`). -/
def date_of (n : Nat) : Nat := n / 1440

/-- The date-range step of the filter loop: an event with no (or falsy)
timestamp skips the bounds checks entirely (`if ts:`). -/
def date_check (c : Criteria) (e : TEvent) : Bool :=
  match e.timestamp with
  | none => true
  | some ts =>
    (match c.date_from with
     | none => true
     | some f => decide (f ≤ date_of ts)) &&
    (match c.date_to with
     | none => true
     | some t => decide (date_of ts ≤ t))

/-- The per-event survival predicate of the filter loop (the chain of
`continue` checks, as one conjunction; the Python truthiness test
`if type_filter:` treats both `None` and an empty set as no filter). -/
def passes_filter (c : Criteria) (e : TEvent) : Bool :=
  !e.is_removed &&
  (c.include_system || !(SYSTEM_EVENT_TYPES.contains (type_val e))) &&
  !(c.status == "active" && e.is_done) &&
  !(c.status == "done" && !e.is_done) &&
  !(c.starred == "yes" && !e.is_starred) &&
  !(c.starred == "no" && e.is_starred) &&
  (match compute_type_filter c.category c.event_type with
   | none => true
   | some ts => if ts.isEmpty then true else ts.contains (type_val e)) &&
  date_check c e

/-- Sort key: `getattr(e, "timestamp", datetime.min)` (Nat-encoded,
`datetime.min = 0`) for events whose timestamp attribute is absent or an
actual datetime; the present-None key, on which comparisons raise, is
modelled by `sort_keyN` below. -/
def sort_key (e : TEvent) : Nat := e.timestamp.getD 0

/-- The descending-by-key order used by `filtered.sort(key=...,
reverse=True)`: `a` may come before `b` when `sort_key b ≤ sort_key a`. -/
def key_ge (a b : TEvent) : Prop := sort_key b ≤ sort_key a

instance : DecidableRel key_ge := fun a b => Nat.decLe (sort_key b) (sort_key a)

instance : IsTotal TEvent key_ge := ⟨fun a b => Nat.le_total (sort_key b) (sort_key a)⟩

instance : IsTrans TEvent key_ge := ⟨fun _ _ _ hab hbc => Nat.le_trans hbc hab⟩

/-- Embedding of `_filter_timeline_events`: filter in input order, stable
descending sort by timestamp, then the slice `[offset : offset + limit]`.
Python `list.sort` is a stable sort; a stable sort with respect to a total
preorder is extensionally unique, so it is embedded as the stable
`List.insertionSort` over `key_ge`.  This function is total on `TEvent`
records (absent-or-datetime timestamps); the `TypeError` the source raises
when a surviving event carries a present-None timestamp is modelled by
`filter_timeline_events_py` below. -/
def filter_timeline_events (events : List TEvent) (c : Criteria) : List TEvent :=
  (((events.filter (passes_filter c)).insertionSort key_ge).drop c.offset).take c.limit

/-!
### Record projections (`_lean_timeline_event`, `_lean_lesson`)

For the projection claims the duck-typed backend records are embedded with
three-state attributes: `absent` (no such attribute — raising on direct
access, taking the default under `getattr`), `pynone` (attribute present
with value `None`) and `val`.  `isoformat`/`strftime` rendering of the
Nat-encoded datetimes is abstracted to a decimal rendering.
-/

inductive Attr (α : Type) where
  | absent
  | pynone
  | val (a : α)
deriving DecidableEq, Repr

/-- `getattr(o, attr, default)` followed by use as an optional value:
an absent attribute yields the given default, a present `None` yields
`none`, a present value yields it. -/
def Attr.getattr {α : Type} : Attr α → Option α → Option α
  | .absent, d => d
  | .pynone, _ => none
  | .val a, _ => some a

/-- Direct attribute access `o.attr`: raises `AttributeError` when the
attribute is absent, otherwise yields the (possibly `None`) value. -/
def attr_access {α : Type} (a : Attr α) (nm : String) : Except String (Option α) :=
  match a with
  | .absent => .error ("AttributeError: " ++ nm)
  | .pynone => .ok none
  | .val x => .ok (some x)

structure AuthorRec where
  name : Attr String
  str_repr : String
deriving DecidableEq, Repr

structure ETypeRec where
  value : Attr String
  str_repr : String
deriving DecidableEq, Repr

structure EventRec where
  event_id : Attr Nat
  event_type : Attr ETypeRec
  timestamp : Attr Nat
  text : Attr String
  author : Attr AuthorRec
  is_done : Attr Bool
  is_starred : Attr Bool
  created_at : Attr Nat
deriving DecidableEq, Repr

/-- Abstracted `isoformat()` of a Nat-encoded datetime. -/
def iso_str (n : Nat) : String := toString n

/-- `author.name if hasattr(author, "name") else str(author) if author
else None`. -/
def author_name_of : Attr AuthorRec → Option String
  | .absent => none
  | .pynone => none
  | .val a =>
    match a.name with
    | .absent => some a.str_repr
    | .pynone => none
    | .val s => some s

/-- `event_type.value if hasattr(event_type, "value") else str(event_type)
if event_type else None`. -/
def type_val_of : Attr ETypeRec → Option String
  | .absent => none
  | .pynone => none
  | .val t =>
    match t.value with
    | .absent => some t.str_repr
    | .pynone => none
    | .val v => some v

structure FlatEvent where
  event_id : Option Nat
  type : Option String
  timestamp : Option String
  text : Option String
  author : Option String
  is_done : Option Bool
  is_starred : Option Bool
  created_at : Option String
deriving DecidableEq, Repr

/-- Embedding of `_lean_timeline_event(event)`: every attribute is read
through `getattr`/`hasattr` guards, so the projection is total. -/
def lean_timeline_event (e : EventRec) : FlatEvent :=
  { event_id := e.event_id.getattr none
    type := type_val_of e.event_type
    timestamp := match e.timestamp with | .val n => some (iso_str n) | _ => none
    text := e.text.getattr none
    author := author_name_of e.author
    is_done := e.is_done.getattr (some false)
    is_starred := e.is_starred.getattr (some false)
    created_at := match e.created_at with | .val n => some (iso_str n) | _ => none }

structure SubjectRef where
  short : Attr String
  name : Attr String
deriving DecidableEq, Repr

structure TeacherRef where
  name : Attr String
deriving DecidableEq, Repr

structure ClassroomRef where
  short : Attr String
  name : Attr String
deriving DecidableEq, Repr

structure LessonRec where
  period : Attr Nat
  start_time : Attr (Nat × Nat)
  end_time : Attr (Nat × Nat)
  duration : Attr Nat
  subject : Attr SubjectRef
  teachers : Attr (List TeacherRef)
  classrooms : Attr (List ClassroomRef)
  groups : Attr (List String)
  is_cancelled : Attr Bool
  is_event : Attr Bool
  curriculum : Attr String
  online_lesson_link : Attr String
deriving DecidableEq, Repr

/-- The list `lesson.teachers or []` iterates over (empty unless the
attribute holds an actual list). -/
def teacher_list (l : LessonRec) : List TeacherRef :=
  match l.teachers with
  | .val ts => ts
  | _ => []

/-- The list `lesson.classrooms or []` iterates over. -/
def classroom_list (l : LessonRec) : List ClassroomRef :=
  match l.classrooms with
  | .val cs => cs
  | _ => []

def pad2 (n : Nat) : String := if n < 10 then "0" ++ toString n else toString n

/-- `t.strftime("%H:%M")` on an (hour, minute) pair. -/
def fmt_hm (t : Nat × Nat) : String := pad2 t.1 ++ ":" ++ pad2 t.2

structure FlatLesson where
  period : Option Nat
  start : Option String
  end_ : Option String
  duration : Option Nat
  subject : Option String
  subject_name : Option String
  teachers : List (Option String)
  classrooms : List (Option String)
  groups : List String
  cancelled : Option Bool
  is_event : Option Bool
  curriculum : Option String
  online_lesson_link : Option String
deriving DecidableEq, Repr

/-- Embedding of `_lean_lesson(lesson)`.  The scalar fields are read
through `getattr` guards, but `lesson.teachers`, `lesson.classrooms` and
`lesson.groups` are accessed directly (raising `AttributeError` when
absent), as are `t.name` on each teacher and `c.name` on each classroom
(the latter evaluated eagerly as the `getattr(c, "short", c.name)` default
argument).  Accesses happen in the evaluation order of the source dict
literal. -/
def lean_lesson (l : LessonRec) : Except String FlatLesson := do
  let period := l.period.getattr none
  let start := match l.start_time with | .val t => some (fmt_hm t) | _ => none
  let end_ := match l.end_time with | .val t => some (fmt_hm t) | _ => none
  let duration := l.duration.getattr none
  let subject := match l.subject with | .val s => s.short.getattr none | _ => none
  let subject_name := match l.subject with | .val s => s.name.getattr none | _ => none
  let teachers_raw ← attr_access l.teachers "teachers"
  let teachers ← (teachers_raw.getD []).mapM (fun t => attr_access t.name "name")
  let classrooms_raw ← attr_access l.classrooms "classrooms"
  let classrooms ← (classrooms_raw.getD []).mapM (fun cr => do
    let n ← attr_access cr.name "name"
    pure (match cr.short with | .absent => n | .pynone => none | .val s => some s))
  let groups_raw ← attr_access l.groups "groups"
  pure { period, start, end_, duration, subject, subject_name, teachers, classrooms,
         groups := groups_raw.getD [],
         cancelled := l.is_cancelled.getattr (some false),
         is_event := l.is_event.getattr (some false),
         curriculum := l.curriculum.getattr none,
         online_lesson_link := l.online_lesson_link.getattr none }

/-!
### Refined timeline events with the present-None timestamp error path

`TEvent` above embeds only events whose `timestamp` attribute is absent or
an actual datetime.  An event may also carry the attribute present with
value `None`: it is falsy under `if ts:` (so the filter steps treat it
exactly like an absent one), but the sort key
`getattr(e, "timestamp", datetime.min)` is then `None`, and Python 3
raises `TypeError` on any comparison involving `None`.  `list.sort` with
two or more elements compares every element's key at least once (adjacent
keys are already compared while the sort detects runs), so one
present-None key among two or more survivors makes
`_filter_timeline_events` raise instead of returning.  The refined
records below carry a three-state timestamp, and the sort is embedded
comparison by comparison, propagating the first error.
-/

structure TEventN where
  eid : Nat
  is_removed : Bool
  event_type : Option String
  is_done : Bool
  is_starred : Bool
  timestamp : Attr Nat
deriving DecidableEq, Repr

/-- The `type_val` string of a refined event (as in `type_val`). -/
def type_valN (e : TEventN) : String := e.event_type.getD ""

/-- Date-range step on refined events: `if ts:` is false for an absent or
present-None timestamp, so both bound checks are skipped. -/
def date_checkN (c : Criteria) (e : TEventN) : Bool :=
  match e.timestamp with
  | .val ts =>
    (match c.date_from with
     | none => true
     | some f => decide (f ≤ date_of ts)) &&
    (match c.date_to with
     | none => true
     | some t => decide (date_of ts ≤ t))
  | _ => true

/-- Per-event survival predicate on refined events (the same `continue`
chain as `passes_filter`). -/
def passes_filterN (c : Criteria) (e : TEventN) : Bool :=
  !e.is_removed &&
  (c.include_system || !(SYSTEM_EVENT_TYPES.contains (type_valN e))) &&
  !(c.status == "active" && e.is_done) &&
  !(c.status == "done" && !e.is_done) &&
  !(c.starred == "yes" && !e.is_starred) &&
  !(c.starred == "no" && e.is_starred) &&
  (match compute_type_filter c.category c.event_type with
   | none => true
   | some ts => if ts.isEmpty then true else ts.contains (type_valN e)) &&
  date_checkN c e

/-- Sort key `getattr(e, "timestamp", datetime.min)` on refined events:
the minimum (0) for an absent attribute, the Python `None` (`none`) for a
present-None attribute, else the datetime. -/
def sort_keyN (e : TEventN) : Option Nat :=
  match e.timestamp with
  | .absent => some 0
  | .pynone => none
  | .val n => some n

/-- One key comparison of the descending sort: defined on actual
datetimes, raising `TypeError` when either side is `None`. -/
def py_key_ge (a b : Option Nat) : Except String Bool :=
  match a, b with
  | some x, some y => .ok (decide (y ≤ x))
  | _, _ => .error "TypeError"

/-- Total comparison value used only to state the sorted result; it
coincides with the actual key whenever no key is `None`. -/
def key_valN (e : TEventN) : Nat := (sort_keyN e).getD 0

/-- Descending order on refined events (`a` may precede `b`). -/
def key_geN (a b : TEventN) : Prop := key_valN b ≤ key_valN a

instance : DecidableRel key_geN := fun a b => Nat.decLe (key_valN b) (key_valN a)

instance : IsTotal TEventN key_geN := ⟨fun a b => Nat.le_total (key_valN b) (key_valN a)⟩

instance : IsTrans TEventN key_geN := ⟨fun _ _ _ hab hbc => Nat.le_trans hbc hab⟩

/-- Stable descending insertion with fallible key comparisons: the earlier
element goes first on ties, and the first comparison touching a `None` key
raises. -/
def ordered_insert_py (x : TEventN) : List TEventN → Except String (List TEventN)
  | [] => .ok [x]
  | y :: ys => do
    let c ← py_key_ge (sort_keyN x) (sort_keyN y)
    if c then pure (x :: y :: ys)
    else do
      let rest ← ordered_insert_py x ys
      pure (y :: rest)

/-- The stable sort of `filtered.sort(key=..., reverse=True)` with its
error path, comparisons going through `py_key_ge`.  A list of at most one
element incurs no comparison; on longer lists every element's key takes
part in at least one comparison, as in Python, so any `None` key raises. -/
def sort_py : List TEventN → Except String (List TEventN)
  | [] => .ok []
  | x :: xs => do
    let s ← sort_py xs
    ordered_insert_py x s

/-- Refined embedding of `_filter_timeline_events`: filter in input order,
sort (which may raise `TypeError`), then the slice
`[offset : offset + limit]`. -/
def filter_timeline_events_py (events : List TEventN) (c : Criteria) :
    Except String (List TEventN) := do
  let sorted ← sort_py (events.filter (passes_filterN c))
  pure ((sorted.drop c.offset).take c.limit)

/-!
### Concrete instances used by witnesses and counterexamples
-/

def c1_reg : List (String × Nat) := [("a", 0), ("b", 1)]

def c1_fetch (s : Nat) : Except String (List Nat) :=
  if s = 0 then .ok [] else .error "boom"

def w1_reg : List (String × Nat) := [("a", 0), ("b", 1)]

def w1_fetch (s : Nat) : Except String (List Nat) :=
  if s = 0 then .error "down" else .ok [7]

def c4_students : List Student := [⟨1, some "Jan Novak"⟩, ⟨2, some "Jana Novakova"⟩]

def c4_reg : List (String × List Student) := [("s1", c4_students)]

def w3_s1 : List Student := [⟨1, some "Ana Bc"⟩]

def w3_s2 : List Student := [⟨2, some "Jan Novak"⟩]

def w3_reg : List (String × List Student) := [("s1", w3_s1), ("s2", w3_s2)]

def w6_students : List Student := [⟨1, some "Jan Novak"⟩, ⟨2, some "Jan Novakova"⟩]

def ev1 : TEvent := ⟨1, false, some "sprava", false, false, some 3000⟩

def ev2 : TEvent := ⟨2, false, some "sprava", false, false, some 2000⟩

def ev3 : TEvent := ⟨3, false, some "sprava", false, false, some 1000⟩

def c7_criteria : Criteria := { limit := 2, offset := 1 }

def ne1 : TEventN := ⟨1, false, some "sprava", false, false, .val 3000⟩

def ne2 : TEventN := ⟨2, false, some "sprava", false, false, .pynone⟩

def c5_criteria : Criteria := {}

def w5n1 : TEventN := ⟨1, false, some "sprava", false, false, .val 3000⟩

def w5n2 : TEventN := ⟨2, false, some "sprava", false, false, .val 2000⟩

def w5n3 : TEventN := ⟨3, false, some "sprava", false, false, .val 1000⟩

def w5_criteria : Criteria := { limit := 2, offset := 0 }

def w9_hw : TEvent := ⟨1, false, some "homework", false, false, some 500⟩

def w9_msg : TEvent := ⟨2, false, some "sprava", false, false, some 600⟩

def w9_criteria : Criteria := { category := "homework", event_type := "sprava" }

def w10_event : TEvent := ⟨1, false, some "sprava", false, false, none⟩

def w10_criteria : Criteria := { date_from := some 10, date_to := some 20 }

def c8_lesson : LessonRec :=
  ⟨.absent, .absent, .absent, .absent, .absent, .absent, .absent, .absent,
   .absent, .absent, .absent, .absent⟩

def w8_lesson : LessonRec :=
  ⟨.absent, .val (9, 5), .absent, .absent, .absent, .pynone, .pynone, .pynone,
   .absent, .absent, .absent, .absent⟩

def w8_event : EventRec :=
  ⟨.absent, .absent, .absent, .absent, .absent, .absent, .absent, .absent⟩

/-!
### Helper lemmas
-/

theorem for_all_loop_eq {σ β : Type} (multi : Bool)
    (fetch : σ → Except String (List β)) (l : List (String × σ)) :
    for_all_loop multi fetch l = (fan_out_oks fetch multi l, fan_out_errs fetch l) := by
  induction l with
  | nil => rfl
  | cons p rest ih =>
    cases h : fetch p.2 <;>
      simp [for_all_loop, fan_out_oks, fan_out_errs, ih, h]

theorem cross_loop_eq (name : String) (l : List (String × List Student)) :
    cross_loop name l = (found_sessions l name, not_found_diags l name) := by
  induction l with
  | nil => rfl
  | cons p rest ih =>
    cases h : (resolve_student p.2 name).1 <;>
      simp [cross_loop, found_sessions, not_found_diags, ih, h]

/-!
### Claim theorems
-/

/-- C1 counterexample: with sessions `a` (fetch succeeds with an empty
list) and `b` (fetch raises), the claim says the call succeeds and returns
the empty concatenation; the code instead raises `AllSchoolsFailed`,
because `if not merged and errors:` tests emptiness of the merged list,
not absence of successes. -/
theorem c1_counterexample :
    c1_fetch 0 = Except.ok [] ∧
    for_all_sessions c1_reg c1_fetch "" =
      Except.error (EduError.allSchoolsFailed [("b", "boom")]) :=
  ⟨rfl, rfl⟩

/-- C1 (amended): for a fan-out over all registered sessions, the call
fails with `AllSchoolsFailed` (one `(session, message)` entry per failed
session, in registration order) exactly when the concatenation of the
successful sessions' contributions is empty and at least one session
failed; otherwise it succeeds with that concatenation, the failed
sessions' errors silently dropped.  In particular it fails whenever every
fetch fails, and succeeds whenever some successful contribution is
nonempty. -/
theorem for_all_sessions_spec {σ β : Type} (reg : List (String × σ))
    (fetch : σ → Except String (List β)) (h : reg ≠ []) :
    (for_all_sessions reg fetch "" =
      if (fan_out_oks fetch (fan_out_multi reg "") reg).isEmpty &&
          !(fan_out_errs fetch reg).isEmpty
      then Except.error (EduError.allSchoolsFailed (fan_out_errs fetch reg))
      else Except.ok (fan_out_oks fetch (fan_out_multi reg "") reg)) ∧
    ((∀ p ∈ reg, ∃ m, fetch p.2 = Except.error m) →
      for_all_sessions reg fetch "" =
        Except.error (EduError.allSchoolsFailed (fan_out_errs fetch reg))) ∧
    (fan_out_oks fetch (fan_out_multi reg "") reg ≠ [] →
      for_all_sessions reg fetch "" =
        Except.ok (fan_out_oks fetch (fan_out_multi reg "") reg)) := by
  have hne : reg.isEmpty = false := List.isEmpty_eq_false.mpr h
  have hmain : for_all_sessions reg fetch "" =
      if (fan_out_oks fetch (fan_out_multi reg "") reg).isEmpty &&
          !(fan_out_errs fetch reg).isEmpty
      then Except.error (EduError.allSchoolsFailed (fan_out_errs fetch reg))
      else Except.ok (fan_out_oks fetch (fan_out_multi reg "") reg) := by
    have h1 : for_all_sessions reg fetch "" =
        (if (for_all_loop (fan_out_multi reg "") fetch reg).1.isEmpty &&
            !(for_all_loop (fan_out_multi reg "") fetch reg).2.isEmpty
         then Except.error
           (EduError.allSchoolsFailed (for_all_loop (fan_out_multi reg "") fetch reg).2)
         else Except.ok (for_all_loop (fan_out_multi reg "") fetch reg).1) := by
      unfold for_all_sessions
      rw [hne]
      rfl
    rw [h1, for_all_loop_eq]
  refine ⟨hmain, ?_, ?_⟩
  · intro hall
    have hoks : ∀ (m : Bool) (l : List (String × σ)),
        (∀ p ∈ l, ∃ msg, fetch p.2 = Except.error msg) → fan_out_oks fetch m l = [] := by
      intro m l hl
      induction l with
      | nil => rfl
      | cons p rest ih =>
        obtain ⟨msg, hmsg⟩ := hl p (List.mem_cons_self p rest)
        simp only [fan_out_oks, List.flatMap_cons, hmsg, List.nil_append]
        exact ih (fun q hq => hl q (List.mem_cons_of_mem _ hq))
    have herrs : fan_out_errs fetch reg ≠ [] := by
      cases reg with
      | nil => exact absurd rfl h
      | cons p rest =>
        obtain ⟨msg, hmsg⟩ := hall p (List.mem_cons_self p rest)
        simp [fan_out_errs, hmsg]
    rw [hmain, if_pos]
    rw [hoks (fan_out_multi reg "") reg hall]
    simp [herrs]
  · intro hok
    rw [hmain, if_neg]
    simp [hok]

/-- C1 witness: two sessions, the first fails and the second succeeds with
a nonempty list; the call succeeds with the successful (tagged)
contribution and the error is dropped. -/
theorem for_all_sessions_spec_witness :
    for_all_sessions w1_reg w1_fetch "" = Except.ok [(some "b", 7)] := by
  have h := (for_all_sessions_spec w1_reg w1_fetch (by decide)).2.2 (by decide)
  exact h.trans (congrArg Except.ok (by decide))

/-- C2 counterexample: on the empty registry with the explicit id "x",
`_get_session` raises `notAuthenticated` (the empty-registry check comes
first in the source), not the `SessionNotFound` error the claim requires
for every explicit-id lookup. -/
theorem c2_counterexample :
    get_session ([] : List (String × Nat)) "x" = Except.error EduError.notAuthenticated ∧
    ¬ (∃ s : Nat, get_session ([] : List (String × Nat)) "x" = Except.ok s) ∧
    ¬ (∃ avail : List String, get_session ([] : List (String × Nat)) "x" =
        Except.error (EduError.schoolNotFound "x" avail)) := by
  refine ⟨rfl, ?_, ?_⟩ <;> rintro ⟨a, ha⟩ <;> simp [get_session] at ha

/-- C2 (amended): `_get_session` fails `notAuthenticated` on an empty
registry regardless of any explicit id; on a nonempty registry an explicit
id returns that id's session or fails `SessionNotFound` listing the
available ids; with no explicit id it returns the unique session when
exactly one is registered and fails `AmbiguousSession` listing the
available ids when two or more are. -/
theorem get_session_spec {σ : Type} (reg : List (String × σ)) (school : String) :
    (reg = [] → get_session reg school = Except.error EduError.notAuthenticated) ∧
    (reg ≠ [] → school ≠ "" →
      (∀ s, List.lookup school reg = some s → get_session reg school = Except.ok s) ∧
      (List.lookup school reg = none →
        get_session reg school =
          Except.error (EduError.schoolNotFound school (reg.map Prod.fst)))) ∧
    (school = "" → ∀ k s, reg = [(k, s)] → get_session reg school = Except.ok s) ∧
    (school = "" → 2 ≤ reg.length →
      get_session reg school =
        Except.error (EduError.ambiguousSession (reg.map Prod.fst))) := by
  refine ⟨?_, ?_, ?_, ?_⟩
  · rintro rfl; rfl
  · intro hne hs
    have hne2 : reg.isEmpty = false := List.isEmpty_eq_false.mpr hne
    constructor
    · intro s hl; simp [get_session, hne2, hs, hl]
    · intro hl; simp [get_session, hne2, hs, hl]
  · rintro rfl k s rfl; rfl
  · rintro rfl hlen
    match reg, hlen with
    | (k1, s1) :: (k2, s2) :: t, _ =>
      simp [get_session]

theorem resolve_across_eq (reg : List (String × List Student)) (name : String)
    (h : reg ≠ []) :
    resolve_student_across_sessions reg name "" =
      (match found_sessions reg name with
       | [f] => Except.ok ⟨f.2.1, f.2.2⟩
       | [] => Except.error (CrossErr.notFoundAnywhere name (not_found_diags reg name))
       | fs => Except.error (CrossErr.multipleSchools name (fs.map fun f => f.1))) := by
  have hne : reg.isEmpty = false := List.isEmpty_eq_false.mpr h
  have h1 : resolve_student_across_sessions reg name "" =
      (match (cross_loop name reg).1 with
       | [f] => Except.ok ⟨f.2.1, f.2.2⟩
       | [] => Except.error (CrossErr.notFoundAnywhere name (cross_loop name reg).2)
       | fs => Except.error (CrossErr.multipleSchools name (fs.map fun f => f.1))) := by
    unfold resolve_student_across_sessions
    rw [hne]
    rfl
  rw [h1, cross_loop_eq]

/-- C3: cross-session resolution with no explicit session: letting `found`
be the sessions in which per-session resolution succeeds, exactly one
member resolves to that session's student, several fail
`AmbiguousNameAcrossSessions` listing the member session ids, and none
fails `NotFound` with the `(sessionId, studentName)` diagnostics gathered
from the sessions that resolved nothing. -/
theorem resolve_across_spec (reg : List (String × List Student)) (name : String)
    (h : reg ≠ []) :
    (∀ sub sts st, found_sessions reg name = [(sub, sts, st)] →
      resolve_student_across_sessions reg name "" = Except.ok ⟨sts, st⟩) ∧
    (1 < (found_sessions reg name).length →
      resolve_student_across_sessions reg name "" =
        Except.error (CrossErr.multipleSchools name
          ((found_sessions reg name).map fun f => f.1))) ∧
    (found_sessions reg name = [] →
      resolve_student_across_sessions reg name "" =
        Except.error (CrossErr.notFoundAnywhere name (not_found_diags reg name))) := by
  refine ⟨?_, ?_, ?_⟩
  · intro sub sts st hf
    rw [resolve_across_eq reg name h, hf]
  · intro hlen
    match hf : found_sessions reg name, hlen with
    | a :: b :: t, _ =>
      rw [resolve_across_eq reg name h, hf]
  · intro hf
    rw [resolve_across_eq reg name h, hf]

/-- C3 witness: "Jan Novak" resolves in exactly one of the two sessions and
the cross-session resolver returns that session's student. -/
theorem resolve_across_spec_witness :
    resolve_student_across_sessions w3_reg "Jan Novak" "" =
      Except.ok ⟨w3_s2, ⟨2, some "Jan Novak"⟩⟩ :=
  (resolve_across_spec w3_reg "Jan Novak" (by decide)).1 "s2" w3_s2
    ⟨2, some "Jan Novak"⟩ (by decide)

/-- C4 counterexample: one registered session containing "Jan Novak" and
"Jana Novakova"; resolving "Novak" (no exact match, two substring matches)
is a within-session ambiguity, and the per-session resolver reports it,
but the cross-session resolver — the resolution path taken when the
session is the only one registered — discards the error and fails with the
"not found" diagnostic listing instead of `AmbiguousNameWithinSession`. -/
theorem c4_counterexample :
    resolve_student c4_students "Novak" =
      (none, some (ResolveErr.ambiguous "Novak" ["Jan Novak", "Jana Novakova"])) ∧
    resolve_student_across_sessions c4_reg "Novak" "" =
      Except.error (CrossErr.notFoundAnywhere "Novak"
        [("s1", "Jan Novak"), ("s1", "Jana Novakova")]) :=
  ⟨rfl, rfl⟩

/-- C4 (amended): when a session's students have no exact match and more
than one substring match for the name, the per-session resolver
`_resolve_student` fails `AmbiguousNameWithinSession` listing the matching
display names; but `_resolve_student_across_sessions` confined to that
session (here: by explicit session id) swallows that error, treats the
session as unresolved, and fails `NotFound` listing all of the session's
students. -/
theorem within_session_ambiguity_spec (students : List Student) (name : String)
    (sub : String) (reg : List (String × List Student))
    (hex : students.filter (exact_match name) = [])
    (hsub : 1 < (students.filter (sub_match name)).length)
    (hsc : sub ≠ "") (hlook : List.lookup sub reg = some students) (hreg : reg ≠ []) :
    resolve_student students name =
      (none, some (ResolveErr.ambiguous name
        ((students.filter (sub_match name)).map display))) ∧
    resolve_student_across_sessions reg name sub =
      Except.error (CrossErr.notFoundAnywhere name
        (students.map fun s => (sub, display s))) := by
  have hne : students ≠ [] := by
    rintro rfl
    simp at hsub
  have hne2 : students.isEmpty = false := List.isEmpty_eq_false.mpr hne
  have hfind : students.find? (exact_match name) = none :=
    List.find?_eq_none.mpr (List.filter_eq_nil_iff.mp hex)
  have hres : resolve_student students name =
      (none, some (ResolveErr.ambiguous name
        ((students.filter (sub_match name)).map display))) := by
    match hms : students.filter (sub_match name), hsub with
    | a :: b :: t, _ =>
      simp [resolve_student, hne2, hfind, hms]
  refine ⟨hres, ?_⟩
  have hreg2 : reg.isEmpty = false := List.isEmpty_eq_false.mpr hreg
  unfold resolve_student_across_sessions
  rw [hreg2]
  have hnarrow : (if sub ≠ "" then (List.lookup sub reg).map (fun sts => [(sub, sts)])
      else some reg) = some [(sub, students)] := by
    rw [if_pos hsc, hlook]
    rfl
  rw [hnarrow]
  have hloop : cross_loop name [(sub, students)] =
      ([], students.map fun s => (sub, display s)) := by
    simp [cross_loop, hres]
  simp [hloop]

/-- C4 witness: explicit session id, no exact match, two substring matches
— the per-session resolver is ambiguous, the confined cross-session
resolver reports not-found with the full student listing. -/
theorem within_session_ambiguity_spec_witness :
    resolve_student c4_students "Novak" =
      (none, some (ResolveErr.ambiguous "Novak" ["Jan Novak", "Jana Novakova"])) ∧
    resolve_student_across_sessions c4_reg "Novak" "s1" =
      Except.error (CrossErr.notFoundAnywhere "Novak"
        [("s1", "Jan Novak"), ("s1", "Jana Novakova")]) :=
  within_session_ambiguity_spec c4_students "Novak" "s1" c4_reg
    (by decide) (by decide) (by decide) (by decide) (by decide)

theorem find_of_filter_singleton {α : Type} (p : α → Bool) (l : List α) (a : α)
    (h : l.filter p = [a]) : l.find? p = some a := by
  induction l with
  | nil => simp at h
  | cons x xs ih =>
    by_cases hx : p x
    · rw [List.filter_cons_of_pos hx] at h
      rw [List.find?_cons_of_pos _ hx]
      exact congrArg some (List.cons_eq_cons.mp h).1
    · rw [List.filter_cons_of_neg hx] at h
      rw [List.find?_cons_of_neg _ hx]
      exact ih h

/-- C6: when the name has exactly one exact case-insensitive match in the
session, per-session resolution returns that student — the substring
branch (and hence any substring matches of other students) is never
reached. -/
theorem resolve_student_exact_precedence (students : List Student) (name : String)
    (s : Student) (h : students.filter (exact_match name) = [s]) :
    resolve_student students name = (some s, none) := by
  have hne : students.isEmpty = false := by
    cases students with
    | nil => simp at h
    | cons x xs => rfl
  have hfind := find_of_filter_singleton (exact_match name) students s h
  simp [resolve_student, hne, hfind]

/-- C6 witness: "jan novak" is an exact match of the first student and also
a substring of the second student's name; resolution returns the first. -/
theorem resolve_student_exact_precedence_witness :
    resolve_student w6_students "jan novak" = (some ⟨1, some "Jan Novak"⟩, none) ∧
    sub_match "jan novak" ⟨2, some "Jan Novakova"⟩ = true :=
  ⟨resolve_student_exact_precedence w6_students "jan novak" ⟨1, some "Jan Novak"⟩
    (by decide), by decide⟩

/-- C7 counterexample: three surviving events, `offset=1, limit=2`; the
first pass returns the second and third events, re-filtering that output
with the same criteria applies `offset=1` again and returns only the third
event, so the pipeline is not idempotent. -/
theorem c7_counterexample :
    filter_timeline_events (filter_timeline_events [ev1, ev2, ev3] c7_criteria)
        c7_criteria ≠
      filter_timeline_events [ev1, ev2, ev3] c7_criteria := by
  decide

/-- C7 (amended): the pipeline is idempotent when `offset = 0` (re-running
drops `offset` events again, so idempotence holds only there): every
output event still passes the same criteria, the output is already sorted,
and its length is at most `limit`. -/
theorem filter_idempotent_offset_zero (events : List TEvent) (c : Criteria)
    (h0 : c.offset = 0) :
    filter_timeline_events (filter_timeline_events events c) c =
      filter_timeline_events events c := by
  have hsub : (filter_timeline_events events c).Sublist
      ((events.filter (passes_filter c)).insertionSort key_ge) :=
    (List.take_sublist _ _).trans (List.drop_sublist _ _)
  have hpass : ∀ x ∈ filter_timeline_events events c, passes_filter c x = true := by
    intro x hx
    have hx2 : x ∈ events.filter (passes_filter c) :=
      (List.mem_insertionSort key_ge).mp (hsub.subset hx)
    exact (List.mem_filter.mp hx2).2
  have hsorted : List.Sorted key_ge (filter_timeline_events events c) :=
    List.Pairwise.sublist hsub (List.sorted_insertionSort key_ge _)
  have hlen : (filter_timeline_events events c).length ≤ c.limit := by
    unfold filter_timeline_events
    rw [List.length_take]
    exact min_le_left _ _
  show ((((filter_timeline_events events c).filter
      (passes_filter c)).insertionSort key_ge).drop c.offset).take c.limit =
    filter_timeline_events events c
  rw [List.filter_eq_self.mpr hpass, hsorted.insertionSort_eq, h0, List.drop_zero,
    List.take_of_length_le hlen]

/-- C7 witness: with `offset = 0` re-filtering the filtered output returns
it unchanged. -/
theorem filter_idempotent_offset_zero_witness :
    filter_timeline_events (filter_timeline_events [ev1, ev2, ev3] w5_criteria)
        w5_criteria =
      filter_timeline_events [ev1, ev2, ev3] w5_criteria :=
  filter_idempotent_offset_zero [ev1, ev2, ev3] w5_criteria rfl

/-- C9: when the supplied category is a key of the static category table,
the effective type filter is that category's expansion and the explicit
comma-separated type list is ignored — the pipeline output is the same as
with an empty `event_type`. -/
theorem category_precedence (events : List TEvent) (c : Criteria) (ts : List String)
    (h : List.lookup c.category EVENT_CATEGORIES = some ts) :
    compute_type_filter c.category c.event_type = some ts ∧
    filter_timeline_events events c =
      filter_timeline_events events { c with event_type := "" } := by
  have hcat : c.category ≠ "" := by
    intro he
    rw [he] at h
    simp [EVENT_CATEGORIES, List.lookup] at h
  have h1 : compute_type_filter c.category c.event_type = some ts := by
    simp [compute_type_filter, hcat, h]
  have h2 : compute_type_filter c.category "" = some ts := by
    simp [compute_type_filter, hcat, h]
  refine ⟨h1, ?_⟩
  have hpp : passes_filter c = passes_filter { c with event_type := "" } := by
    funext e
    simp only [passes_filter, h1, h2, date_check]
  unfold filter_timeline_events
  rw [hpp]

/-- C9 witness: category "homework" with an explicit type list "sprava";
the category expansion wins and only the homework event survives. -/
theorem category_precedence_witness :
    (compute_type_filter w9_criteria.category w9_criteria.event_type =
        some ["homework", "etesthw"] ∧
      filter_timeline_events [w9_hw, w9_msg] w9_criteria =
        filter_timeline_events [w9_hw, w9_msg] { w9_criteria with event_type := "" }) ∧
    filter_timeline_events [w9_hw, w9_msg] w9_criteria = [w9_hw] :=
  ⟨category_precedence [w9_hw, w9_msg] w9_criteria ["homework", "etesthw"] (by decide),
    by decide⟩

/-- C10 (implicit): an event whose timestamp attribute is absent or `None`
is never dropped by the date-range step: its date check passes regardless
of the bounds, and its survival does not depend on `date_from`/`date_to` —
the remaining filter steps still apply. -/
theorem no_timestamp_passes_date_filter (c : Criteria) (e : TEvent)
    (h : e.timestamp = none) :
    date_check c e = true ∧
    passes_filter c e =
      passes_filter { c with date_from := none, date_to := none } e := by
  have hd : date_check c e = true := by
    simp [date_check, h]
  have hd2 : date_check { c with date_from := none, date_to := none } e = true := by
    simp [date_check, h]
  refine ⟨hd, ?_⟩
  simp only [passes_filter, hd, hd2]

/-- C10 witness: an event with no timestamp survives a pipeline with both
date bounds set, exactly as it would with no bounds. -/
theorem no_timestamp_passes_date_filter_witness :
    date_check w10_criteria w10_event = true ∧
    passes_filter w10_criteria w10_event =
      passes_filter { w10_criteria with date_from := none, date_to := none }
        w10_event :=
  no_timestamp_passes_date_filter w10_criteria w10_event rfl

theorem except_ok_bind {ε α β : Type} (a : α) (f : α → Except ε β) :
    (Except.ok a >>= f : Except ε β) = f a := rfl

theorem except_pure {ε α : Type} (a : α) : (pure a : Except ε α) = Except.ok a := rfl

theorem attr_access_ok {α : Type} (a : Attr α) (nm : String) (h : a ≠ Attr.absent) :
    attr_access a nm = Except.ok (a.getattr none) := by
  cases a with
  | absent => exact absurd rfl h
  | pynone => rfl
  | val x => rfl

theorem mapM_teacher_names (ts : List TeacherRef)
    (h : ∀ t ∈ ts, t.name ≠ Attr.absent) :
    (ts.mapM fun t => attr_access t.name "name") =
      Except.ok (ts.map fun t => t.name.getattr none) := by
  induction ts with
  | nil => rfl
  | cons t rest ih =>
    have h1 := attr_access_ok t.name "name" (h t (List.mem_cons_self t rest))
    have h2 := ih (fun x hx => h x (List.mem_cons_of_mem _ hx))
    rw [List.mapM_cons, h1, except_ok_bind, h2, except_ok_bind, except_pure,
      List.map_cons]

theorem mapM_classroom_names (cs : List ClassroomRef)
    (h : ∀ cr ∈ cs, cr.name ≠ Attr.absent) :
    (cs.mapM fun cr => do
        let n ← attr_access cr.name "name"
        pure (match cr.short with
          | Attr.absent => n
          | Attr.pynone => none
          | Attr.val s => some s)) =
      Except.ok (cs.map fun cr =>
        match cr.short with
        | Attr.absent => cr.name.getattr none
        | Attr.pynone => none
        | Attr.val s => some s) := by
  induction cs with
  | nil => rfl
  | cons cr rest ih =>
    have h1 := attr_access_ok cr.name "name" (h cr (List.mem_cons_self cr rest))
    have h2 := ih (fun x hx => h x (List.mem_cons_of_mem _ hx))
    rw [List.mapM_cons, h1, except_ok_bind, h2]
    rfl

theorem lean_lesson_ok (l : LessonRec)
    (ht : l.teachers ≠ Attr.absent) (hc : l.classrooms ≠ Attr.absent)
    (hg : l.groups ≠ Attr.absent)
    (htn : ∀ t ∈ teacher_list l, t.name ≠ Attr.absent)
    (hcn : ∀ cr ∈ classroom_list l, cr.name ≠ Attr.absent) :
    lean_lesson l = Except.ok
      { period := l.period.getattr none
        start := match l.start_time with | .val t => some (fmt_hm t) | _ => none
        end_ := match l.end_time with | .val t => some (fmt_hm t) | _ => none
        duration := l.duration.getattr none
        subject := match l.subject with | .val s => s.short.getattr none | _ => none
        subject_name := match l.subject with | .val s => s.name.getattr none | _ => none
        teachers := (teacher_list l).map fun t => t.name.getattr none
        classrooms := (classroom_list l).map fun cr =>
          match cr.short with
          | Attr.absent => cr.name.getattr none
          | Attr.pynone => none
          | Attr.val s => some s
        groups := (l.groups.getattr none).getD []
        cancelled := l.is_cancelled.getattr (some false)
        is_event := l.is_event.getattr (some false)
        curriculum := l.curriculum.getattr none
        online_lesson_link := l.online_lesson_link.getattr none } := by
  have hT := attr_access_ok l.teachers "teachers" ht
  have hC := attr_access_ok l.classrooms "classrooms" hc
  have hG := attr_access_ok l.groups "groups" hg
  have hTL : (l.teachers.getattr none).getD [] = teacher_list l := by
    unfold teacher_list
    cases hx : l.teachers with
    | absent => exact absurd hx ht
    | pynone => rfl
    | val ts => rfl
  have hCL : (l.classrooms.getattr none).getD [] = classroom_list l := by
    unfold classroom_list
    cases hx : l.classrooms with
    | absent => exact absurd hx hc
    | pynone => rfl
    | val cs => rfl
  have hTM := mapM_teacher_names (teacher_list l) htn
  have hCM := mapM_classroom_names (classroom_list l) hcn
  simp only [lean_lesson, hT, except_ok_bind]
  simp only [hTL, hTM, except_ok_bind]
  simp only [hC, except_ok_bind, hCL]
  simp only [hCM, except_ok_bind]
  simp only [hG, except_ok_bind, except_pure]

/-- C8 counterexample: a lesson record with no attributes at all.  The
claim requires the projection to return a record with null fields; the
code instead raises `AttributeError` at the direct access
`lesson.teachers`. -/
theorem c8_counterexample :
    lean_lesson c8_lesson = Except.error "AttributeError: teachers" := rfl

/-- C8 (amended): the timeline-event projection is total and defensive for
every record (missing optional attributes project to null; the boolean
flags default to `false`, not null); the lesson projection is defensive
only in its `getattr`-guarded fields and is total exactly when its
directly-accessed attributes — `teachers`, `classrooms`, `groups`, and the
`name` of each listed teacher and classroom — are present; a missing one
raises instead of projecting to null. -/
theorem projection_totality_spec (e : EventRec) (l : LessonRec)
    (ht : l.teachers ≠ Attr.absent) (hc : l.classrooms ≠ Attr.absent)
    (hg : l.groups ≠ Attr.absent)
    (htn : ∀ t ∈ teacher_list l, t.name ≠ Attr.absent)
    (hcn : ∀ cr ∈ classroom_list l, cr.name ≠ Attr.absent) :
    ((e.event_id = Attr.absent → (lean_timeline_event e).event_id = none) ∧
     (e.event_type = Attr.absent → (lean_timeline_event e).type = none) ∧
     (e.timestamp = Attr.absent → (lean_timeline_event e).timestamp = none) ∧
     (e.text = Attr.absent → (lean_timeline_event e).text = none) ∧
     (e.author = Attr.absent → (lean_timeline_event e).author = none) ∧
     (e.created_at = Attr.absent → (lean_timeline_event e).created_at = none) ∧
     (e.is_done = Attr.absent → (lean_timeline_event e).is_done = some false) ∧
     (e.is_starred = Attr.absent → (lean_timeline_event e).is_starred = some false)) ∧
    (∃ f : FlatLesson, lean_lesson l = Except.ok f ∧
      (l.period = Attr.absent → f.period = none) ∧
      (l.subject = Attr.absent → f.subject = none ∧ f.subject_name = none) ∧
      (l.curriculum = Attr.absent → f.curriculum = none)) := by
  constructor
  · refine ⟨?_, ?_, ?_, ?_, ?_, ?_, ?_, ?_⟩ <;> intro h <;>
      simp [lean_timeline_event, h, Attr.getattr, type_val_of, author_name_of]
  · refine ⟨_, lean_lesson_ok l ht hc hg htn hcn, ?_, ?_, ?_⟩
    · intro hp
      simp [hp, Attr.getattr]
    · intro hs
      constructor <;> simp [hs]
    · intro hcu
      simp [hcu, Attr.getattr]

/-- C8 witness: a timeline event with every attribute absent projects to
nulls (booleans to `false`); a lesson whose collection attributes are
present (with value `None`) projects successfully. -/
theorem projection_totality_spec_witness :
    (lean_timeline_event w8_event).timestamp = none ∧
    (lean_timeline_event w8_event).is_done = some false ∧
    ∃ f : FlatLesson, lean_lesson w8_lesson = Except.ok f := by
  have h := projection_totality_spec w8_event w8_lesson (by decide) (by decide)
    (by decide) (by decide) (by decide)
  obtain ⟨he, f, hf, _⟩ := h
  exact ⟨he.2.2.1 rfl, he.2.2.2.2.2.2.1 rfl, f, hf⟩

/-- C2 witness: a one-entry registry resolves with no explicit id to its
unique session. -/
theorem get_session_spec_witness :
    get_session [("a", 5)] "" = Except.ok 5 :=
  (get_session_spec [("a", 5)] "").2.2.1 rfl "a" 5 rfl

theorem except_error_bind {ε α β : Type} (e : ε) (f : α → Except ε β) :
    (Except.error e >>= f : Except ε β) = Except.error e := rfl

theorem py_key_ge_none_left (b : Option Nat) :
    py_key_ge none b = Except.error "TypeError" := by
  cases b <;> rfl

theorem py_key_ge_none_right (a : Option Nat) :
    py_key_ge a none = Except.error "TypeError" := by
  cases a <;> rfl

theorem ordered_insert_py_ok (x : TEventN) (l : List TEventN)
    (hx : (sort_keyN x).isSome) (hl : ∀ e ∈ l, (sort_keyN e).isSome) :
    ordered_insert_py x l = Except.ok (List.orderedInsert key_geN x l) := by
  induction l with
  | nil => rfl
  | cons y ys ih =>
    obtain ⟨kx, hkx⟩ := Option.isSome_iff_exists.mp hx
    obtain ⟨ky, hky⟩ := Option.isSome_iff_exists.mp (hl y (List.mem_cons_self y ys))
    have hcmp : py_key_ge (sort_keyN x) (sort_keyN y) = Except.ok (decide (ky ≤ kx)) := by
      rw [hkx, hky]
      rfl
    have hkv : key_valN x = kx := by simp [key_valN, hkx]
    have hkvy : key_valN y = ky := by simp [key_valN, hky]
    have h1 : ordered_insert_py x (y :: ys) =
        (py_key_ge (sort_keyN x) (sort_keyN y) >>= fun c =>
          if c then pure (x :: y :: ys)
          else ordered_insert_py x ys >>= fun rest => pure (y :: rest)) := rfl
    rw [h1, hcmp, except_ok_bind]
    by_cases hc : ky ≤ kx
    · have hr : List.orderedInsert key_geN x (y :: ys) = x :: y :: ys := by
        simp only [List.orderedInsert]
        rw [if_pos]
        show key_valN y ≤ key_valN x
        rw [hkv, hkvy]
        exact hc
      rw [if_pos (by simpa using hc), except_pure, hr]
    · have ihe := ih (fun e he => hl e (List.mem_cons_of_mem _ he))
      have hr : List.orderedInsert key_geN x (y :: ys) =
          y :: List.orderedInsert key_geN x ys := by
        simp only [List.orderedInsert]
        rw [if_neg]
        intro hK
        apply hc
        rwa [key_geN, hkv, hkvy] at hK
      rw [if_neg (by simpa using hc), ihe, except_ok_bind, except_pure, hr]

theorem sort_py_ok (l : List TEventN) (hl : ∀ e ∈ l, (sort_keyN e).isSome) :
    sort_py l = Except.ok (l.insertionSort key_geN) := by
  induction l with
  | nil => rfl
  | cons x xs ih =>
    have h2 := ih (fun e he => hl e (List.mem_cons_of_mem _ he))
    have hx := hl x (List.mem_cons_self x xs)
    have hmem : ∀ e ∈ xs.insertionSort key_geN, (sort_keyN e).isSome := by
      intro e he
      exact hl e (List.mem_cons_of_mem _ ((List.mem_insertionSort key_geN).mp he))
    have h1 : sort_py (x :: xs) =
        (sort_py xs >>= fun s => ordered_insert_py x s) := rfl
    rw [h1, h2, except_ok_bind, ordered_insert_py_ok x _ hx hmem]
    rfl

theorem ordered_insert_py_none (x : TEventN) (l : List TEventN)
    (hx : sort_keyN x = none) (hl : l ≠ []) :
    ordered_insert_py x l = Except.error "TypeError" := by
  cases l with
  | nil => exact absurd rfl hl
  | cons y ys =>
    have h1 : ordered_insert_py x (y :: ys) =
        (py_key_ge (sort_keyN x) (sort_keyN y) >>= fun c =>
          if c then pure (x :: y :: ys)
          else ordered_insert_py x ys >>= fun rest => pure (y :: rest)) := rfl
    rw [h1, hx, py_key_ge_none_left, except_error_bind]

theorem sort_py_error (l : List TEventN) (hlen : 2 ≤ l.length)
    (hbad : ∃ e ∈ l, sort_keyN e = none) :
    sort_py l = Except.error "TypeError" := by
  induction l with
  | nil => simp at hlen
  | cons x xs ih =>
    have hstep : sort_py (x :: xs) =
        (sort_py xs >>= fun s => ordered_insert_py x s) := rfl
    by_cases hx : ∃ e2 ∈ xs, sort_keyN e2 = none
    · cases xs with
      | nil =>
        obtain ⟨e2, he2, _⟩ := hx
        simp at he2
      | cons y ys =>
        cases ys with
        | nil =>
          obtain ⟨e2, he2, hke2⟩ := hx
          have he2y : e2 = y := by simpa using he2
          rw [he2y] at hke2
          have hy1 : sort_py (x :: [y]) = ordered_insert_py x [y] := rfl
          have hy2 : ordered_insert_py x [y] =
              (py_key_ge (sort_keyN x) (sort_keyN y) >>= fun c =>
                if c then pure (x :: [y])
                else ordered_insert_py x [] >>= fun rest => pure (y :: rest)) := rfl
          rw [hy1, hy2, hke2, py_key_ge_none_right, except_error_bind]
        | cons z zs =>
          have hlen2 : 2 ≤ (y :: z :: zs).length := by
            simp [List.length_cons]
          have herr := ih hlen2 hx
          rw [hstep, herr, except_error_bind]
    · have hxk : sort_keyN x = none := by
        obtain ⟨e, he, hke⟩ := hbad
        rcases List.mem_cons.mp he with rfl | hmem
        · exact hke
        · exact absurd ⟨e, hmem, hke⟩ hx
      have hxs : ∀ e2 ∈ xs, (sort_keyN e2).isSome := by
        intro e2 he2
        cases hsk : sort_keyN e2 with
        | none => exact absurd ⟨e2, he2, hsk⟩ hx
        | some v => rfl
      have hxlen : 1 ≤ xs.length := by
        simp only [List.length_cons] at hlen
        omega
      have hne : xs.insertionSort key_geN ≠ [] := by
        intro hnil
        have hlx : xs.length = 0 := by
          simpa [List.length_insertionSort] using congrArg List.length hnil
        omega
      rw [hstep, sort_py_ok xs hxs, except_ok_bind]
      exact ordered_insert_py_none x _ hxk hne

/-- C5 counterexample: two surviving events, one of which carries its
timestamp attribute present with value `None`.  The claim requires the
pipeline to return the sorted slice with the no-timestamp event ordered as
oldest; `filtered.sort` instead raises `TypeError` on the first key
comparison. -/
theorem c5_counterexample :
    filter_timeline_events_py [ne1, ne2] c5_criteria = Except.error "TypeError" := rfl

/-- C5 (amended): for every input whose surviving events all have an
actual sort key — the timestamp attribute absent (key `datetime.min`, the
oldest possible value) or a datetime — the pipeline returns exactly the
survivors sorted by timestamp descending, sliced to
`[offset, offset + limit)`; the result is empty when `offset` reaches the
survivor count, and for survivors with timestamps t1>t2>t3, `limit=2,
offset=0` yields [t1,t2] and `offset=1, limit=2` yields [t2,t3].  But when
a surviving event has its timestamp attribute present with value `None`
and there are at least two survivors, the pipeline raises `TypeError`
instead of returning the sorted slice. -/
theorem filter_pipeline_spec_py (events : List TEventN) (c : Criteria) :
    ((∀ e ∈ events.filter (passes_filterN c), (sort_keyN e).isSome) →
      (∃ sorted : List TEventN,
        sorted.Perm (events.filter (passes_filterN c)) ∧
        List.Sorted key_geN sorted ∧
        filter_timeline_events_py events c =
          Except.ok ((sorted.drop c.offset).take c.limit)) ∧
      ((events.filter (passes_filterN c)).length ≤ c.offset →
        filter_timeline_events_py events c = Except.ok []) ∧
      (∀ e1 e2 e3, events.filter (passes_filterN c) = [e1, e2, e3] →
        key_valN e2 < key_valN e1 → key_valN e3 < key_valN e2 →
        (c.offset = 0 → c.limit = 2 →
          filter_timeline_events_py events c = Except.ok [e1, e2]) ∧
        (c.offset = 1 → c.limit = 2 →
          filter_timeline_events_py events c = Except.ok [e2, e3]))) ∧
    (2 ≤ (events.filter (passes_filterN c)).length →
      (∃ e ∈ events.filter (passes_filterN c), sort_keyN e = none) →
      filter_timeline_events_py events c = Except.error "TypeError") := by
  constructor
  · intro hall
    have hpipe : filter_timeline_events_py events c =
        Except.ok ((((events.filter (passes_filterN c)).insertionSort
          key_geN).drop c.offset).take c.limit) := by
      have h1 : filter_timeline_events_py events c =
          (sort_py (events.filter (passes_filterN c)) >>= fun sorted =>
            pure ((sorted.drop c.offset).take c.limit)) := rfl
      rw [h1, sort_py_ok _ hall, except_ok_bind, except_pure]
    refine ⟨⟨(events.filter (passes_filterN c)).insertionSort key_geN,
        List.perm_insertionSort key_geN _, List.sorted_insertionSort key_geN _,
        hpipe⟩, ?_, ?_⟩
    · intro hlen
      have hlen2 : ((events.filter (passes_filterN c)).insertionSort key_geN).length ≤
          c.offset := by
        rwa [List.length_insertionSort]
      rw [hpipe, List.drop_eq_nil_of_le hlen2, List.take_nil]
    · intro e1 e2 e3 hf h12 h23
      have k12 : key_geN e1 e2 := Nat.le_of_lt h12
      have k13 : key_geN e1 e3 := Nat.le_of_lt (Nat.lt_trans h23 h12)
      have k23 : key_geN e2 e3 := Nat.le_of_lt h23
      have hsorted : List.Sorted key_geN [e1, e2, e3] := by
        refine List.Pairwise.cons ?_ (List.Pairwise.cons ?_
          (List.Pairwise.cons ?_ List.Pairwise.nil))
        · intro b hb
          simp only [List.mem_cons, List.not_mem_nil, or_false] at hb
          rcases hb with rfl | rfl
          · exact k12
          · exact k13
        · intro b hb
          simp only [List.mem_cons, List.not_mem_nil, or_false] at hb
          rcases hb with rfl
          exact k23
        · intro b hb
          exact absurd hb (List.not_mem_nil b)
      have heq : (events.filter (passes_filterN c)).insertionSort key_geN =
          [e1, e2, e3] := by
        rw [hf]
        exact hsorted.insertionSort_eq
      constructor
      · intro h0 h2
        rw [hpipe, heq, h0, h2]
        rfl
      · intro h1 h2
        rw [hpipe, heq, h1, h2]
        rfl
  · intro hlen hbad
    have h1 : filter_timeline_events_py events c =
        (sort_py (events.filter (passes_filterN c)) >>= fun sorted =>
          pure ((sorted.drop c.offset).take c.limit)) := rfl
    rw [h1, sort_py_error _ hlen hbad, except_error_bind]

/-- C5 witness: three surviving events with timestamps 3000 > 2000 > 1000
and limit 2, offset 0 return the two most recent; two survivors with one
present-None timestamp raise `TypeError`. -/
theorem filter_pipeline_spec_py_witness :
    filter_timeline_events_py [w5n1, w5n2, w5n3] w5_criteria =
      Except.ok [w5n1, w5n2] ∧
    filter_timeline_events_py [ne1, ne2] c5_criteria = Except.error "TypeError" := by
  constructor
  · have h := ((filter_pipeline_spec_py [w5n1, w5n2, w5n3] w5_criteria).1
      (by decide)).2.2 w5n1 w5n2 w5n3 (by decide) (by decide) (by decide)
    exact h.1 rfl rfl
  · exact (filter_pipeline_spec_py [ne1, ne2] c5_criteria).2 (by decide)
      ⟨ne2, by decide, rfl⟩
